import Mathlib

/-!
Shallow embedding of the sensor-sampling and notification-decision core of
the presto-tools UPS monitor (scripts/presto_ups_monitor.py).

Floating-point values of the source are modelled as exact rationals; the
register values are natural numbers. Effects (bus traffic, the log file,
process exit, notification delivery) are made explicit: each getter carries
the list of bus operations it performs, the sampling loop and the
notification engine return the log calls they make, and process exit is a
flag derived from the logging helper, which terminates on level ERROR.
-/

/- ## Register-level constants (module-level constants of the source) -/

def REG_CONFIG : Nat := 0
def REG_SHUNTVOLTAGE : Nat := 1
def REG_BUSVOLTAGE : Nat := 2
def REG_POWER : Nat := 3
def REG_CURRENT : Nat := 4
def REG_CALIBRATION : Nat := 5

/-- Calibration value written by set_calibration_16V_5A. -/
def cal_value : Nat := 26868

/-- Current LSB of the 16V/5A profile (0.1524 mA per bit). -/
def current_lsb : ℚ := 1524 / 10000

/-- Power LSB of the 16V/5A profile (0.003048 W per bit). -/
def power_lsb : ℚ := 3048 / 1000000

/- ## Signed reinterpretation and the physical getters -/

/-- Signed reinterpretation of a raw 16-bit register value, exactly as the
source performs it in getShuntVoltage_mV, getCurrent_mA and getPower_W:
`if value > 32767: value -= 65535`. -/
def toSigned (v : Nat) : ℤ :=
  if v > 32767 then (v : ℤ) - 65535 else (v : ℤ)

/-- Value computed by getShuntVoltage_mV from the raw register value. -/
def getShuntVoltage_mV_val (raw : Nat) : ℚ :=
  (toSigned raw : ℚ) * (1 / 100)

/-- Value computed by getBusVoltage_V from the raw register value
(right shift by 3, then scale by 4 mV). -/
def getBusVoltage_V_val (raw : Nat) : ℚ :=
  ((raw / 8 : Nat) : ℚ) * (4 / 1000)

/-- Value computed by getCurrent_mA from the raw register value. -/
def getCurrent_mA_val (raw : Nat) : ℚ :=
  (toSigned raw : ℚ) * current_lsb

/-- Value computed by getPower_W from the raw register value. -/
def getPower_W_val (raw : Nat) : ℚ :=
  (toSigned raw : ℚ) * power_lsb

/-- One operation on the byte-oriented bus. -/
inductive BusOp where
  | write (reg : Nat) (value : Nat)
  | read (reg : Nat)
deriving DecidableEq

/-- Bus operations performed by getShuntVoltage_mV, in order. -/
def getShuntVoltage_ops : List BusOp :=
  [BusOp.write REG_CALIBRATION cal_value, BusOp.read REG_SHUNTVOLTAGE]

/-- Bus operations performed by getBusVoltage_V, in order (it reads the
bus-voltage register twice and keeps the second value). -/
def getBusVoltage_ops : List BusOp :=
  [BusOp.write REG_CALIBRATION cal_value, BusOp.read REG_BUSVOLTAGE,
   BusOp.read REG_BUSVOLTAGE]

/-- Bus operations performed by getCurrent_mA, in order. -/
def getCurrent_ops : List BusOp :=
  [BusOp.read REG_CURRENT]

/-- Bus operations performed by getPower_W, in order. -/
def getPower_ops : List BusOp :=
  [BusOp.write REG_CALIBRATION cal_value, BusOp.read REG_POWER]

/-- Whether an operation sequence begins with a write of the profile
calibration value to the calibration register. -/
def startsWithCalWrite : List BusOp → Bool
  | BusOp.write r v :: _ => r == REG_CALIBRATION && v == cal_value
  | _ => false

/-- Whether an operation sequence contains any register write at all. -/
def containsWrite : List BusOp → Bool
  | [] => false
  | BusOp.write _ _ :: _ => true
  | BusOp.read _ :: rest => containsWrite rest

/- ## The logging helper -/

/-- One call to log_message: a level and a console message. -/
structure LogCall where
  level : String
  message : String
deriving DecidableEq

/-- log_message calls sys.exit(1) when the level is ERROR, so a call with
level ERROR never returns to its caller. -/
def log_message_exits (level : String) : Bool :=
  level == "ERROR"

/- ## Readings and the sampling tick -/

/-- The data dictionary produced by one sampling tick. -/
structure Reading where
  bus_voltage : ℚ
  shunt_voltage : ℚ
  current : ℚ
  power : ℚ
  percent : ℚ
deriving DecidableEq

/-- The percent clamp of the sampling tick: two sequential if statements,
first capping above at 100, then below at 0. -/
def clampPercent (p : ℚ) : ℚ :=
  let p1 := if p > 100 then 100 else p
  if p1 < 0 then 0 else p1

/-- The Reading built by one sampling tick from the four physical values
(shunt voltage arrives in millivolts and is divided by 1000). -/
def mkReading (bus shunt_mV current power : ℚ) : Reading :=
  { bus_voltage := bus
    shunt_voltage := shunt_mV / 1000
    current := current
    power := power
    percent := clampPercent ((bus - 3) / (12 / 10) * 100) }

/-- Outcomes of the four physical reads attempted by one tick of
sample_ina219, each either a value or a raised error. -/
structure TickReads where
  busVoltage : Except String ℚ
  shuntVoltage : Except String ℚ
  current : Except String ℚ
  power : Except String ℚ

/-- One sampling tick: the four reads in source order; the first raised
error aborts the tick, otherwise the Reading is built. -/
def sampleTick (t : TickReads) : Except String Reading :=
  match t.busVoltage with
  | Except.error e => Except.error e
  | Except.ok bv =>
    match t.shuntVoltage with
    | Except.error e => Except.error e
    | Except.ok sv =>
      match t.current with
      | Except.error e => Except.error e
      | Except.ok cur =>
        match t.power with
        | Except.error e => Except.error e
        | Except.ok pw => Except.ok (mkReading bv sv cur pw)

/-- Result of running the sampling loop over a list of scheduled ticks:
the Readings put on the queue, the log calls made, and whether the loop
is still alive afterwards. -/
structure LoopResult where
  published : List Reading
  logs : List LogCall
  alive : Bool
deriving DecidableEq

/-- The sampling loop of sample_ina219 over a finite schedule of ticks.
A successful tick publishes its Reading and the loop continues. A failed
tick runs the except handler, which calls log_message with level ERROR;
since log_message then calls sys.exit(1), the SystemExit escapes the
handler and the loop terminates. -/
def sampleLoop : List TickReads → LoopResult
  | [] => { published := [], logs := [], alive := true }
  | t :: rest =>
    match sampleTick t with
    | Except.ok r =>
      let tail := sampleLoop rest
      { published := r :: tail.published, logs := tail.logs, alive := tail.alive }
    | Except.error e =>
      let entry : LogCall := { level := "ERROR", message := "Sampling error: " ++ e }
      if log_message_exits entry.level then
        { published := [], logs := [entry], alive := false }
      else
        let tail := sampleLoop rest
        { published := tail.published, logs := entry :: tail.logs, alive := tail.alive }

/- ## The bounded-queue model -/

/-- Python queue.Queue: maxsize 0 means an infinite queue. -/
structure PyQueue (α : Type) where
  maxsize : Nat
  items : List α
deriving DecidableEq

/-- Blocking put: returns none (the producer blocks) exactly when the queue
has a positive maxsize and is full; otherwise the item is appended. -/
def qput {α : Type} (q : PyQueue α) (x : α) : Option (PyQueue α) :=
  if 0 < q.maxsize ∧ q.maxsize ≤ q.items.length then none
  else some { q with items := q.items ++ [x] }

/-- The queue constructed in main: queue.Queue() with the default
maxsize of 0. -/
def mkDataQueue : PyQueue Reading :=
  { maxsize := 0, items := [] }

/- ## Notifier state and the notification engine -/

/-- Append to a deque of the given maxlen: the new element goes to the
back and the front is dropped once the length exceeds maxlen. -/
def dequeAppend (maxlen : Nat) (xs : List ℚ) (x : ℚ) : List ℚ :=
  let ys := xs ++ [x]
  if maxlen < ys.length then ys.drop (ys.length - maxlen) else ys

/-- The mutable state of the INA219 object used by the notification
engine, with the configuration fields it reads. -/
structure NotifierState where
  last_notification : Option ℚ
  is_unplugged : Bool
  current_readings : List ℚ
  power_readings : List ℚ
  power_threshold : ℚ
  percent_threshold : ℚ
  battery_capacity_mAh : ℚ
  battery_voltage : ℚ
deriving DecidableEq

/-- The state right after construction with the default configuration:
no notification yet, plugged, both deques empty, thresholds 0.5 W and
20 %, battery 1000 mAh at 3.7 V. -/
def initState : NotifierState :=
  { last_notification := none
    is_unplugged := false
    current_readings := []
    power_readings := []
    power_threshold := 1 / 2
    percent_threshold := 20
    battery_capacity_mAh := 1000
    battery_voltage := 37 / 10 }

/-- estimate_battery_runtime: none while the power deque holds fewer than
its maxlen of 5 samples, none when the average watts are below 0.1, else
the energy in mWh divided by the average power in mW. -/
def estimate_battery_runtime (s : NotifierState) : Option ℚ :=
  if s.power_readings.length < 5 then none
  else
    let avg_power_W := s.power_readings.sum / (s.power_readings.length : ℚ)
    if avg_power_W < 1 / 10 then none
    else
      let avg_power_mW := avg_power_W * 1000
      let energy_mWh := s.battery_capacity_mAh * s.battery_voltage
      some (energy_mWh / avg_power_mW)

/-- The messages the engine can produce; the unplugged message carries the
runtime figure it embeds, or none when the source prints unknown. -/
inductive NtfyMessage where
  | unplugged (runtime : Option ℚ)
  | reconnected
  | lowPower (power : ℚ)
  | lowPercent (percent : ℚ)
deriving DecidableEq

/-- Python truthiness of the runtime in the message text: both None and a
runtime of exactly 0 print as unknown. -/
def runtimeDisplay (r : Option ℚ) : Option ℚ :=
  match r with
  | none => none
  | some x => if x = 0 then none else some x

/-- The cooldown test of send_ntfy_notification: pass when no notification
was ever sent, or when at least 300 seconds (5 minutes) have elapsed. -/
def cooldownOk (last : Option ℚ) (now : ℚ) : Bool :=
  match last with
  | none => true
  | some t => decide (now - t ≥ 300)

/-- The decision chain of send_ntfy_notification, evaluated after the
current sample has been appended to the current deque: the message chosen
(none when no branch fires) and the new value of is_unplugged. -/
def notify_decision (s : NotifierState) (power percent current : ℚ) :
    Option NtfyMessage × Bool :=
  let cw := dequeAppend 3 s.current_readings current
  let all_negative := cw.all (fun c => decide (c < -10))
  let all_positive := cw.all (fun c => decide (c > 10))
  if all_negative && !s.is_unplugged then
    (some (NtfyMessage.unplugged (runtimeDisplay (estimate_battery_runtime s))), true)
  else if all_positive && s.is_unplugged then
    (some NtfyMessage.reconnected, false)
  else if all_positive && decide (power < s.power_threshold) then
    (some (NtfyMessage.lowPower power), s.is_unplugged)
  else if all_positive && decide (percent < s.percent_threshold) then
    (some (NtfyMessage.lowPercent percent), s.is_unplugged)
  else
    (none, s.is_unplugged)

/-- Result of one call to send_ntfy_notification: the state afterwards,
the message whose delivery was attempted (if any), the log calls made,
and whether the process exits (log_message with level ERROR exits). -/
structure NotifyResult where
  state : NotifierState
  message : Option NtfyMessage
  logs : List LogCall
  processExit : Bool
deriving DecidableEq

/-- send_ntfy_notification. It returns at once while the power deque is
not full; inside the cooldown guard it appends the current sample to the
current deque, runs the decision chain, and when a message was chosen
attempts delivery: on success it logs INFO and records the notification
time, on failure it logs ERROR (which exits the process) and the
notification time stays as it was. -/
def send_ntfy_notification (s : NotifierState) (now power percent current : ℚ)
    (delivery_ok : Bool) : NotifyResult :=
  if s.power_readings.length < 5 then
    { state := s, message := none, logs := [], processExit := false }
  else if cooldownOk s.last_notification now then
    let d := notify_decision s power percent current
    let s' := { s with
                current_readings := dequeAppend 3 s.current_readings current
                is_unplugged := d.2 }
    match d.1 with
    | none => { state := s', message := none, logs := [], processExit := false }
    | some m =>
      if delivery_ok then
        { state := { s' with last_notification := some now }
          message := some m
          logs := [{ level := "INFO", message := "Notification sent" }]
          processExit := false }
      else
        { state := s'
          message := some m
          logs := [{ level := "ERROR", message := "Failed to send notification" }]
          processExit := log_message_exits "ERROR" }
  else
    { state := s, message := none, logs := [], processExit := false }

/-- One Reading flowing through the system: the producer appends the power
value to the power deque, then the consumer pops the Reading and calls
send_ntfy_notification with its power, percent and current. -/
def feedReading (s : NotifierState) (r : Reading) (now : ℚ) (ok : Bool) :
    NotifierState × Option NtfyMessage :=
  let s1 := { s with power_readings := dequeAppend 5 s.power_readings r.power }
  let res := send_ntfy_notification s1 now r.power r.percent r.current ok
  (res.state, res.message)

/-- Feed a timed sequence of Readings through producer and consumer,
collecting every message whose delivery was attempted. -/
def feedAll : NotifierState → List (Reading × ℚ) → NotifierState × List NtfyMessage
  | s, [] => (s, [])
  | s, (r, now) :: rest =>
    let step := feedReading s r now true
    let tail := feedAll step.1 rest
    (tail.1, step.2.toList ++ tail.2)

/- ## The reporting path for platform temperatures -/

/-- What a temperature field of the report shows. -/
inductive TempDisplay where
  | unknown
  | value (t : ℚ)
deriving DecidableEq

/-- The conditional of the report line for CPU and GPU temperature: the
number is printed only when the reading is truthy, so both an absent
reading and a reading of exactly 0 print as Unknown. -/
def temp_report (t : Option ℚ) : TempDisplay :=
  match t with
  | none => TempDisplay.unknown
  | some x => if x = 0 then TempDisplay.unknown else TempDisplay.value x

/- ## Concrete scenarios used by the counterexamples and witnesses -/

/-- A tick whose bus-voltage read raises a transport error. -/
def errTick : TickReads :=
  { busVoltage := Except.error "Remote I/O error"
    shuntVoltage := Except.ok 0, current := Except.ok 0, power := Except.ok 0 }

/-- A tick whose four reads all succeed. -/
def goodTick : TickReads :=
  { busVoltage := Except.ok 4, shuntVoltage := Except.ok 0
    current := Except.ok 100, power := Except.ok 1 }

/-- Five identical on-battery Readings (current -20 mA, power 1 W), with
the times at which the consumer processes them. -/
def onBatterySeq : List (Reading × ℚ) :=
  [(mkReading 4 0 (-20) 1, 0), (mkReading 4 0 (-20) 1, 2), (mkReading 4 0 (-20) 1, 4),
   (mkReading 4 0 (-20) 1, 6), (mkReading 4 0 (-20) 1, 8)]

/-- A state whose power deque is full, whose current deque holds two
plugged samples, and which sent its last notification at time 0. -/
def stateCooldown : NotifierState :=
  { initState with
    last_notification := some 0
    current_readings := [20, 20]
    power_readings := [1, 1, 1, 1, 1] }

/-- A state whose power deque is full and whose current deque holds two
plugged samples, with no notification sent yet. -/
def statePlugged : NotifierState :=
  { initState with
    current_readings := [20, 20]
    power_readings := [1, 1, 1, 1, 1] }

/-- A state whose full power deque averages 0.5 W, with the default
1000 mAh battery at 3.7 V. -/
def stateHalfWatt : NotifierState :=
  { initState with
    power_readings := [1 / 2, 1 / 2, 1 / 2, 1 / 2, 1 / 2] }

/- ## Helper lemmas -/

/-- The two sequential clamping ifs of the sampling tick compute the
clamp of their input to the interval [0, 100]. -/
lemma clampPercent_eq (p : ℚ) : clampPercent p = min 100 (max 0 p) := by
  unfold clampPercent
  by_cases h1 : p > 100
  · rw [if_pos h1, if_neg (by norm_num)]
    rw [max_eq_right (by linarith : (0:ℚ) ≤ p), min_eq_left (by linarith : (100:ℚ) ≤ p)]
  · rw [if_neg h1]
    by_cases h2 : p < 0
    · rw [if_pos h2, max_eq_left (le_of_lt h2), min_eq_right (by norm_num : (0:ℚ) ≤ 100)]
    · rw [if_neg h2, max_eq_right (not_lt.mp h2), min_eq_right (not_lt.mp h1)]

/-- Appending to the current deque never produces an empty list. -/
lemma dequeAppend_ne_nil (xs : List ℚ) (x : ℚ) : dequeAppend 3 xs x ≠ [] := by
  simp only [dequeAppend]
  split_ifs with h
  · intro hc
    have hlen := congrArg List.length hc
    simp only [List.length_drop, List.length_append, List.length_nil] at hlen
    simp only [List.length_append, List.length_singleton] at h
    omega
  · simp

/-- A nonempty list of all-positive currents is not all-negative. -/
lemma all_pos_not_all_neg (l : List ℚ) (hne : l ≠ [])
    (hp : l.all (fun c => decide (c > 10)) = true) :
    l.all (fun c => decide (c < -10)) = false := by
  cases l with
  | nil => exact absurd rfl hne
  | cons a t =>
    simp only [List.all_cons, Bool.and_eq_true, decide_eq_true_eq] at hp
    have h1 : decide (a < -10) = false := by
      simp only [decide_eq_false_iff_not]
      linarith [hp.1]
    simp [List.all_cons, h1]

/- ## Claim theorems -/

/-- Claim C7: the signed reinterpretation used by the shunt-voltage,
current and power reads returns the raw value unchanged when it is at
most 32767 and returns the value minus 65535 when it is above 32767; in
particular the boundary value 32768 yields -32767, the documented
off-by-one from true two's complement. -/
theorem toSigned_spec (v : Nat) :
    (v ≤ 32767 → toSigned v = (v : ℤ)) ∧
    (32767 < v → toSigned v = (v : ℤ) - 65535) ∧
    toSigned 32768 = -32767 ∧
    getShuntVoltage_mV_val v = (toSigned v : ℚ) * (1 / 100) ∧
    getCurrent_mA_val v = (toSigned v : ℚ) * current_lsb ∧
    getPower_W_val v = (toSigned v : ℚ) * power_lsb := by
  refine ⟨fun h => ?_, fun h => ?_, by norm_num [toSigned], rfl, rfl, rfl⟩
  · rw [toSigned, if_neg (by omega)]
  · rw [toSigned, if_pos (by omega)]

/-- Claim C7 witness: the conversion at the raw values 40000 and 32768. -/
theorem toSigned_spec_witness :
    toSigned 40000 = (40000 : ℤ) - 65535 ∧ toSigned 32768 = -32767 :=
  ⟨(toSigned_spec 40000).2.1 (by norm_num), (toSigned_spec 32768).2.2.1⟩

/-- Claim C8: the percent field of the Reading constructed by the
sampling tick equals the linear estimate (busVoltage - 3) / 1.2 * 100
clamped to the interval [0, 100], for every busVoltage input. -/
theorem percent_clamped (bus shunt_mV current power : ℚ) :
    (mkReading bus shunt_mV current power).percent
      = min 100 (max 0 ((bus - 3) / (12 / 10) * 100)) ∧
    0 ≤ (mkReading bus shunt_mV current power).percent ∧
    (mkReading bus shunt_mV current power).percent ≤ 100 := by
  have h : (mkReading bus shunt_mV current power).percent
      = min 100 (max 0 ((bus - 3) / (12 / 10) * 100)) := by
    show clampPercent ((bus - 3) / (12 / 10) * 100) = _
    exact clampPercent_eq _
  refine ⟨h, ?_, ?_⟩
  · rw [h]
    exact le_min (by norm_num) (le_max_left 0 _)
  · rw [h]
    exact min_le_left 100 _

/-- Claim C10: in the reporting path a temperature of exactly 0 is shown
as Unknown, the same as an absent reading; only non-zero present readings
are shown as numbers. -/
theorem temp_report_spec :
    temp_report (some 0) = TempDisplay.unknown ∧
    temp_report none = TempDisplay.unknown ∧
    ∀ x : ℚ, x ≠ 0 → temp_report (some x) = TempDisplay.value x := by
  refine ⟨by simp [temp_report], rfl, fun x hx => by simp [temp_report, hx]⟩

/-- Claim C10 witness: a reading of 55 degrees is shown as the number 55. -/
theorem temp_report_spec_witness : temp_report (some 55) = TempDisplay.value 55 :=
  temp_report_spec.2.2 55 (by norm_num)

/-- Claim C5 counterexample: the current read performs no register write
at all, so it does not re-write the calibration register before reading
its data register. -/
theorem getCurrent_ops_no_write : containsWrite getCurrent_ops = false := rfl

/-- Claim C5 amended: the shunt-voltage, bus-voltage and power reads
re-write the calibration register with the profile value immediately
before touching their data register, while the current read issues no
calibration write. -/
theorem calibration_rewrite_coverage :
    startsWithCalWrite getShuntVoltage_ops = true ∧
    startsWithCalWrite getBusVoltage_ops = true ∧
    startsWithCalWrite getPower_ops = true ∧
    containsWrite getCurrent_ops = false :=
  ⟨rfl, rfl, rfl, rfl⟩

/-- Claim C6 counterexample: the queue constructed in main has maxsize 0,
and a put into it succeeds even when it already holds 100 Readings, so
its size is not bounded by any capacity and a put never blocks. -/
theorem dataQueue_unbounded_cex :
    mkDataQueue.maxsize = 0 ∧
    (qput { maxsize := mkDataQueue.maxsize,
            items := List.replicate 100 (mkReading 4 0 0 1) }
        (mkReading 4 0 0 1)).isSome = true := by
  constructor
  · rfl
  · simp [qput, mkDataQueue]

/-- Claim C6 amended: the queue between producer and consumer is created
with the default maxsize 0 and is therefore unbounded: a put never blocks
and always appends the Reading, so no Reading is dropped, but the size of
the queue is not bounded by any capacity. -/
theorem qput_never_blocks :
    mkDataQueue.maxsize = 0 ∧
    ∀ (xs : List Reading) (x : Reading),
      qput { maxsize := mkDataQueue.maxsize, items := xs } x
        = some { maxsize := mkDataQueue.maxsize, items := xs ++ [x] } := by
  refine ⟨rfl, fun xs x => ?_⟩
  simp [qput, mkDataQueue]

/-- Claim C1: evaluating the sampling loop on a schedule whose first tick
raises a read error and whose second tick would succeed: the error is
logged and no partial Reading is published, but the loop is no longer
alive and the second tick is never sampled, because the except handler
calls log_message with level ERROR and log_message then calls
sys.exit(1), which terminates the sampling loop instead of letting it
continue with the next scheduled tick. -/
theorem sampleLoop_first_error_halts :
    sampleLoop [errTick, goodTick] =
      { published := []
        logs := [{ level := "ERROR", message := "Sampling error: Remote I/O error" }]
        alive := false } := by
  norm_num [sampleLoop, sampleTick, errTick, goodTick, log_message_exits]
  rfl

/-- Claim C2 counterexample: feeding five on-battery Readings from the
fresh state, the engine fires the unplug transition and attempts a
message on the very tick that fills the power window, while the current
window holds only the single sample -20 (fewer than its capacity 3). -/
theorem notify_fires_with_partial_current_window :
    (feedAll initState onBatterySeq).2 = [NtfyMessage.unplugged (some (37 / 10))] ∧
    (feedAll initState onBatterySeq).1.current_readings = [-20] ∧
    (feedAll initState onBatterySeq).1.is_unplugged = true := by
  norm_num [onBatterySeq, mkReading, clampPercent, feedAll, feedReading,
    send_ntfy_notification, notify_decision, dequeAppend, cooldownOk,
    estimate_battery_runtime, runtimeDisplay, initState, log_message_exits]

/-- Claim C2 amended: the engine emits no message and leaves its state
untouched while the power window (capacity 5) is short of full capacity;
fullness of the current window (capacity 3) is not required, and a
transition can fire with a single sample in it. -/
theorem no_notification_before_power_window_full
    (s : NotifierState) (now power percent current : ℚ) (ok : Bool)
    (h : s.power_readings.length < 5) :
    send_ntfy_notification s now power percent current ok =
      { state := s, message := none, logs := [], processExit := false } := by
  simp [send_ntfy_notification, h]

/-- Claim C2 witness: the fresh state has an empty power window, so the
first consumed Reading produces no message and no state change. -/
theorem no_notification_before_power_window_full_witness :
    send_ntfy_notification initState 0 1 50 5 true =
      { state := initState, message := none, logs := [], processExit := false } :=
  no_notification_before_power_window_full initState 0 1 50 5 true
    (by norm_num [initState])

/-- Claim C3 counterexample: at elapsed time exactly 300 seconds (which
does not exceed the 5-minute cooldown) a low-power message is dispatched,
and when its delivery fails the notification time stays at its old value
instead of being updated to the current time. -/
theorem notification_time_not_updated_on_failure :
    (send_ntfy_notification stateCooldown 300 (1 / 4) 50 20 false).message
      = some (NtfyMessage.lowPower (1 / 4)) ∧
    (send_ntfy_notification stateCooldown 300 (1 / 4) 50 20 false).state.last_notification
      = some 0 ∧
    ¬ ((300 : ℚ) - 0 > 300) := by
  refine ⟨?_, ?_, by norm_num⟩ <;>
    norm_num [send_ntfy_notification, notify_decision, dequeAppend, cooldownOk,
      estimate_battery_runtime, runtimeDisplay, stateCooldown, initState,
      log_message_exits]

/-- Claim C3 amended: the delivery outcome changes neither the state
transition nor the message (no rollback); when a message is dispatched
and delivery succeeds the notification time becomes the current time,
while on a transport failure it is left as it was and the failure is
logged with level ERROR (upon which the logger exits the process); and a
message is dispatched only when no notification was sent before or at
least 300 seconds have elapsed since the last one. -/
theorem notification_cooldown_and_failure_spec
    (s : NotifierState) (now power percent current : ℚ) :
    (send_ntfy_notification s now power percent current false).state.is_unplugged
      = (send_ntfy_notification s now power percent current true).state.is_unplugged ∧
    (send_ntfy_notification s now power percent current false).state.current_readings
      = (send_ntfy_notification s now power percent current true).state.current_readings ∧
    (send_ntfy_notification s now power percent current false).message
      = (send_ntfy_notification s now power percent current true).message ∧
    ((send_ntfy_notification s now power percent current true).message.isSome = true →
      (send_ntfy_notification s now power percent current true).state.last_notification
        = some now) ∧
    ((send_ntfy_notification s now power percent current false).message.isSome = true →
      (send_ntfy_notification s now power percent current false).state.last_notification
        = s.last_notification ∧
      (send_ntfy_notification s now power percent current false).logs
        = [{ level := "ERROR", message := "Failed to send notification" }] ∧
      (send_ntfy_notification s now power percent current false).processExit = true) ∧
    ((send_ntfy_notification s now power percent current true).message.isSome = true →
      cooldownOk s.last_notification now = true) := by
  by_cases h1 : s.power_readings.length < 5
  · simp [send_ntfy_notification, h1]
  · by_cases h2 : cooldownOk s.last_notification now = true
    · rcases hd : (notify_decision s power percent current).1 with _ | m
      · simp [send_ntfy_notification, h1, h2, hd]
      · simp [send_ntfy_notification, h1, h2, hd, log_message_exits]
    · simp [send_ntfy_notification, h1, h2]

/-- Claim C3 witness: in the cooldown state at time 301 with successful
delivery, the notification time is updated to 301. -/
theorem notification_cooldown_and_failure_spec_witness :
    (send_ntfy_notification stateCooldown 301 (1 / 4) 50 20 true).state.last_notification
      = some 301 :=
  (notification_cooldown_and_failure_spec stateCooldown 301 (1 / 4) 50 20).2.2.2.1
    (by norm_num [send_ntfy_notification, notify_decision, dequeAppend, cooldownOk,
      stateCooldown, initState])

/-- Claim C4 counterexample: the append is not the unconditional first
step of a consumed tick. A tick consumed with a short power window does
not append the current sample (appending would have produced the
singleton window), and a tick consumed with a full power window but an
unexpired cooldown (10 seconds after the last notification) also leaves
the current window untouched and evaluates no condition (appending would
have grown the window to three samples). -/
theorem current_not_appended_on_short_window :
    (send_ntfy_notification initState 0 1 50 5 true).state.current_readings = [] ∧
    dequeAppend 3 initState.current_readings 5 = [5] ∧
    (send_ntfy_notification stateCooldown 10 1 50 5 true).state.current_readings
      = [20, 20] ∧
    (send_ntfy_notification stateCooldown 10 1 50 5 true).message = none ∧
    dequeAppend 3 stateCooldown.current_readings 5 = [20, 20, 5] := by
  refine ⟨?_, ?_, ?_, ?_, ?_⟩
  · norm_num [send_ntfy_notification, initState]
  · norm_num [dequeAppend, initState]
  · norm_num [send_ntfy_notification, cooldownOk, stateCooldown, initState]
  · norm_num [send_ntfy_notification, cooldownOk, stateCooldown, initState]
  · norm_num [dequeAppend, stateCooldown, initState]

/-- Claim C4 amended: a tick consumed with a short power window, or with
a full power window but an unexpired cooldown, appends nothing and
evaluates no condition (the call is a no-op); once the power window is
full and the cooldown has elapsed, the current sample is first appended
to the current window, and the four transition conditions are then
evaluated on the appended window in the stated order with the first
match winning (the message is a single Option, so at most one message
per tick): an all-negative window with the plugged state wins over every
later branch, and each later branch fires exactly when the earlier ones
do not. -/
theorem notify_decision_order
    (s : NotifierState) (now power percent current : ℚ) (ok : Bool) :
    (s.power_readings.length < 5 →
      send_ntfy_notification s now power percent current ok =
        { state := s, message := none, logs := [], processExit := false }) ∧
    (¬ s.power_readings.length < 5 →
      cooldownOk s.last_notification now = false →
      send_ntfy_notification s now power percent current ok =
        { state := s, message := none, logs := [], processExit := false }) ∧
    (¬ s.power_readings.length < 5 →
      cooldownOk s.last_notification now = true →
      (send_ntfy_notification s now power percent current ok).state.current_readings
        = dequeAppend 3 s.current_readings current ∧
      ((dequeAppend 3 s.current_readings current).all (fun c => decide (c < -10)) = true →
        s.is_unplugged = false →
        (send_ntfy_notification s now power percent current ok).message
          = some (NtfyMessage.unplugged (runtimeDisplay (estimate_battery_runtime s))) ∧
        (send_ntfy_notification s now power percent current ok).state.is_unplugged = true) ∧
      ((dequeAppend 3 s.current_readings current).all (fun c => decide (c > 10)) = true →
        s.is_unplugged = true →
        (send_ntfy_notification s now power percent current ok).message
          = some NtfyMessage.reconnected ∧
        (send_ntfy_notification s now power percent current ok).state.is_unplugged = false) ∧
      ((dequeAppend 3 s.current_readings current).all (fun c => decide (c > 10)) = true →
        s.is_unplugged = false → power < s.power_threshold →
        (send_ntfy_notification s now power percent current ok).message
          = some (NtfyMessage.lowPower power)) ∧
      ((dequeAppend 3 s.current_readings current).all (fun c => decide (c > 10)) = true →
        s.is_unplugged = false → ¬ power < s.power_threshold →
        percent < s.percent_threshold →
        (send_ntfy_notification s now power percent current ok).message
          = some (NtfyMessage.lowPercent percent))) := by
  have hne := dequeAppend_ne_nil s.current_readings current
  refine ⟨fun h5 => ?_, fun h5 hcd => ?_, fun h5 hcd => ⟨?_, ?_, ?_, ?_, ?_⟩⟩
  · simp [send_ntfy_notification, h5]
  · simp [send_ntfy_notification, h5, hcd]
  · rcases hd : (notify_decision s power percent current).1 with _ | m
    · simp [send_ntfy_notification, h5, hcd, hd]
    · cases ok <;> simp [send_ntfy_notification, h5, hcd, hd, log_message_exits]
  · intro hneg hunp
    have hd : notify_decision s power percent current
        = (some (NtfyMessage.unplugged (runtimeDisplay (estimate_battery_runtime s))), true) := by
      simp [notify_decision, hneg, hunp]
    cases ok <;>
      simp [send_ntfy_notification, h5, hcd, hd, log_message_exits]
  · intro hpos hunp
    have hneg := all_pos_not_all_neg _ hne hpos
    have hd : notify_decision s power percent current = (some NtfyMessage.reconnected, false) := by
      simp [notify_decision, hneg, hunp, hpos]
    cases ok <;>
      simp [send_ntfy_notification, h5, hcd, hd, log_message_exits]
  · intro hpos hunp hlt
    have hneg := all_pos_not_all_neg _ hne hpos
    have hd : notify_decision s power percent current
        = (some (NtfyMessage.lowPower power), s.is_unplugged) := by
      simp [notify_decision, hneg, hunp, hpos, hlt]
    cases ok <;>
      simp [send_ntfy_notification, h5, hcd, hd, log_message_exits]
  · intro hpos hunp hnlt hpct
    have hneg := all_pos_not_all_neg _ hne hpos
    have hd : notify_decision s power percent current
        = (some (NtfyMessage.lowPercent percent), s.is_unplugged) := by
      simp [notify_decision, hneg, hunp, hpos, hnlt, hpct]
    cases ok <;>
      simp [send_ntfy_notification, h5, hcd, hd, log_message_exits]

/-- Claim C4 witness: in the plugged state with a full power window, a
low-power tick appends its current sample and produces the low-power
message. -/
theorem notify_decision_order_witness :
    (send_ntfy_notification statePlugged 0 (1 / 4) 50 20 true).message
      = some (NtfyMessage.lowPower (1 / 4)) :=
  (((notify_decision_order statePlugged 0 (1 / 4) 50 20 true).2.2
      (by norm_num [statePlugged, initState])
      (by norm_num [cooldownOk, statePlugged, initState])).2.2.2.1)
    (by norm_num [dequeAppend, statePlugged, initState])
    (by norm_num [statePlugged, initState])
    (by norm_num [statePlugged, initState])

/-- Claim C9: the battery runtime estimate returns a value only when the
power window is at its full capacity of 5 samples; with a full window
averaging below 0.1 W it returns none (unavailable); otherwise it returns
capacity times voltage divided by the average milliwatts, a positive
rational; and the concrete scenario of 1000 mAh, 3.7 V and a full window
averaging 0.5 W yields 7.4 hours. -/
theorem estimate_battery_runtime_spec (s : NotifierState)
    (hcap : 0 < s.battery_capacity_mAh) (hvolt : 0 < s.battery_voltage) :
    (s.power_readings.length < 5 → estimate_battery_runtime s = none) ∧
    (¬ s.power_readings.length < 5 →
      s.power_readings.sum / (s.power_readings.length : ℚ) < 1 / 10 →
      estimate_battery_runtime s = none) ∧
    (¬ s.power_readings.length < 5 →
      ¬ s.power_readings.sum / (s.power_readings.length : ℚ) < 1 / 10 →
      estimate_battery_runtime s
        = some ((s.battery_capacity_mAh * s.battery_voltage)
            / ((s.power_readings.sum / (s.power_readings.length : ℚ)) * 1000)) ∧
      0 < (s.battery_capacity_mAh * s.battery_voltage)
            / ((s.power_readings.sum / (s.power_readings.length : ℚ)) * 1000)) ∧
    estimate_battery_runtime stateHalfWatt = some (37 / 5) := by
  refine ⟨fun h => ?_, fun h5 havg => ?_, fun h5 havg => ?_,
          by norm_num [estimate_battery_runtime, stateHalfWatt, initState]⟩
  · simp only [estimate_battery_runtime]
    rw [if_pos h]
  · simp only [estimate_battery_runtime]
    rw [if_neg h5, if_pos havg]
  · constructor
    · simp only [estimate_battery_runtime]
      rw [if_neg h5, if_neg havg]
    · have h10 : (1 : ℚ) / 10 ≤ s.power_readings.sum / (s.power_readings.length : ℚ) :=
        not_lt.mp havg
      have hpos : (0 : ℚ) < s.power_readings.sum / (s.power_readings.length : ℚ) :=
        lt_of_lt_of_le (by norm_num) h10
      exact div_pos (mul_pos hcap hvolt) (by positivity)

/-- Claim C9 witness: the estimate at the concrete 0.5 W scenario. -/
theorem estimate_battery_runtime_spec_witness :
    estimate_battery_runtime stateHalfWatt = some (37 / 5) :=
  (estimate_battery_runtime_spec stateHalfWatt
      (by norm_num [stateHalfWatt, initState])
      (by norm_num [stateHalfWatt, initState])).2.2.2
